import Mathlib

/-!
Verification of the Vistro e-commerce backend (`main.py`, `schemas.py`).

The development shallowly embeds the repository's request handlers and the
document-store operations they rely on.  BSON-like values are modelled by the
inductive `Value`; a MongoDB document is an association list of string keys and
values (`Doc`), insertion-ordered like a Python `dict`.  Arrays and
sub-documents inside a `Value` are encoded structurally with cons cells
(`consA`/`consD`) so that equality is decidable and all functions compute.
Floats carry only `>= 0` comparisons in this code base, so they are modelled
exactly by rationals.
-/

/-- A BSON-like value: strings, numbers, booleans, ObjectIds (by their 24-hex
representation), null, arrays (`nilA`/`consA`) and sub-documents
(`nilD`/`consD`, key-value cons cells in insertion order). -/
inductive Value where
  | str (s : String)
  | num (q : Rat)
  | intV (n : Int)
  | boolV (b : Bool)
  | oid (o : String)
  | null
  | nilA
  | consA (hd : Value) (tl : Value)
  | nilD
  | consD (k : String) (v : Value) (tl : Value)
deriving DecidableEq, Inhabited

/-- Build an array `Value` from a Lean list. -/
def Value.ofList : List Value → Value
  | [] => .nilA
  | v :: vs => .consA v (Value.ofList vs)

/-- Build a sub-document `Value` from a Lean list of key-value pairs. -/
def Value.ofDoc : List (String × Value) → Value
  | [] => .nilD
  | (k, v) :: kvs => .consD k v (Value.ofDoc kvs)

/-- A top-level MongoDB document: insertion-ordered key-value pairs, as a
Python `dict` holds them. -/
abbrev Doc : Type := List (String × Value)

/-- `k in d` on a Python dict. -/
def hasKey : Doc → String → Bool
  | [], _ => false
  | kv :: tl, k => kv.1 == k || hasKey tl k

/-- `d[k]` lookup (first occurrence; a real dict has unique keys). -/
def getVal : Doc → String → Option Value
  | [], _ => none
  | kv :: tl, k => if kv.1 == k then some kv.2 else getVal tl k

/-- `d.pop(k)`'s effect on the dict: remove the key. -/
def removeKey : Doc → String → Doc
  | [], _ => []
  | kv :: tl, k => if kv.1 == k then removeKey tl k else kv :: removeKey tl k

/-- Replace the value stored under an existing key, keeping its position. -/
def updateKey : Doc → String → Value → Doc
  | [], _, _ => []
  | kv :: tl, k, v => (if kv.1 == k then (k, v) else kv) :: updateKey tl k v

/-- `d[k] = v` on a Python dict: update in place if the key exists, else append
at the end (dicts preserve insertion order). -/
def setKey (d : Doc) (k : String) (v : Value) : Doc :=
  if hasKey d k then updateKey d k v else d ++ [(k, v)]

/-- Python `str(...)` as `serialize_doc` uses it.  In every reachable call the
argument is an `ObjectId` (whose `str` is its 24-hex representation) — the other
branches mirror Python's rendering where it is simple and are never exercised
by the handlers. -/
def pyStr : Value → String
  | .oid o => o
  | .str s => s
  | .boolV true => "True"
  | .boolV false => "False"
  | .intV n => toString n
  | .num q => toString q
  | .null => "None"
  | _ => "<value>"

/-- The body of `serialize_doc`'s loop over `d.items()`: stringify the value
of one top-level entry when it is an ObjectId instance, leave it alone
otherwise. -/
def stripTopOid (kv : String × Value) : String × Value :=
  match kv.2 with
  | .oid o => (kv.1, .str o)
  | _ => kv

/-- `main.serialize_doc` on a non-`None` document.  Mirrors the Python body:
empty dict returned as is; otherwise work on a copy, replace a top-level
`_id` by a string `id` appended at the end, then walk the top-level items and
stringify any value that is an `ObjectId` instance.  The loop does NOT recurse
into lists or sub-documents. -/
def serialize_doc (doc : Doc) : Doc :=
  if doc.isEmpty then doc
  else
    let d :=
      if hasKey doc "_id" then
        match getVal doc "_id" with
        | some v => setKey (removeKey doc "_id") "id" (.str (pyStr v))
        | none => doc
      else doc
    d.map stripTopOid

/-- `serialize_doc` lifted to an optional document: `if not doc: return doc`
returns `None` unchanged for a `None` argument. -/
def serialize_doc_opt : Option Doc → Option Doc
  | none => none
  | some d => some (serialize_doc d)

/-- Embedding of a call site `serialize_doc(doc)`: `d = dict(doc)` copies the
dict, so every later mutation hits the copy only.  The pair returned is
(the caller's dict after the call, the function's return value). -/
def serialize_doc_call (doc : Doc) : Doc × Doc :=
  (doc, serialize_doc doc)

/-- `true` iff no ObjectId-typed value occurs anywhere in the value, at any
nesting depth. -/
def valueFreeOfOid : Value → Bool
  | .oid _ => false
  | .consA v tl => valueFreeOfOid v && valueFreeOfOid tl
  | .consD _ v tl => valueFreeOfOid v && valueFreeOfOid tl
  | _ => true

/-- `true` iff no ObjectId-typed value occurs anywhere in the document. -/
def docFreeOfOid (d : Doc) : Bool :=
  d.all (fun kv => valueFreeOfOid kv.2)

/-- `true` iff the value is an ObjectId instance (`isinstance(v, ObjectId)`). -/
def isOidValue : Value → Bool
  | .oid _ => true
  | _ => false

/-- A hexadecimal digit, as `bson.ObjectId` accepts them (either case). -/
def isHexDigit (c : Char) : Bool :=
  c.isDigit || ('a' ≤ c && c ≤ 'f') || ('A' ≤ c && c ≤ 'F')

/-- Syntactic validity of an ObjectId string: exactly 24 hexadecimal
characters, the format `bson.ObjectId(str)` accepts. -/
def isValidObjectId (s : String) : Bool :=
  s.length == 24 && s.toList.all isHexDigit

/-- `bson.ObjectId(s)`: returns the canonical (lowercase) 24-hex identifier,
or `none` when the constructor would raise `InvalidId`. -/
def parseOid (s : String) : Option String :=
  if isValidObjectId s then some (String.mk (s.toList.map Char.toLower)) else none

/-- The hexadecimal digit character of `n % 16`, lowercase as `str(ObjectId)`
renders identifiers. -/
def hexChar (n : Nat) : Char :=
  match n % 16 with
  | 0 => '0' | 1 => '1' | 2 => '2' | 3 => '3' | 4 => '4' | 5 => '5'
  | 6 => '6' | 7 => '7' | 8 => '8' | 9 => '9' | 10 => 'a' | 11 => 'b'
  | 12 => 'c' | 13 => 'd' | 14 => 'e' | _ => 'f'

/-- Modelled from the spec: the store generates opaque identifiers on insert
(`database.py` is not among the sources).  The `n`-th generated identifier,
rendered in the store's native 24-hex format, most significant digit first. -/
def genId (n : Nat) : String :=
  String.mk ((List.range 24).map (fun i => hexChar (n / 16 ^ (23 - i))))

theorem hexChar_isHex (n : Nat) : isHexDigit (hexChar n) = true := by
  unfold hexChar
  have h : n % 16 < 16 := Nat.mod_lt _ (by norm_num)
  interval_cases h : n % 16 <;> decide

theorem hexChar_toLower (n : Nat) : (hexChar n).toLower = hexChar n := by
  unfold hexChar
  have h : n % 16 < 16 := Nat.mod_lt _ (by norm_num)
  interval_cases h : n % 16 <;> decide

/-- Every generated identifier is syntactically valid for the store's
identifier format and already canonical (lowercase). -/
theorem parseOid_genId (n : Nat) : parseOid (genId n) = some (genId n) := by
  have hlen : (genId n).length = 24 := by
    simp [genId, String.length]
  have hval : isValidObjectId (genId n) = true := by
    simp [isValidObjectId, hlen, genId, String.toList]
    intro c _
    exact hexChar_isHex _
  have hlow : String.mk ((genId n).toList.map Char.toLower) = genId n := by
    simp [genId, String.toList, List.map_map]
    congr 1
    apply List.map_congr_left
    intro i _
    exact hexChar_toLower _
  simpa [parseOid, hval, String.toList] using hlow

/-- `schemas.ProductVariant`. -/
structure ProductVariant where
  size : Option String := none
  color : Option String := none
  sku : Option String := none
  stock : Int := 0
deriving DecidableEq, Inhabited

/-- `schemas.Product`. -/
structure Product where
  title : String
  description : Option String := none
  price : Rat
  category : String
  images : List String := []
  brand : String := "Vistro"
  tags : List String := []
  variants : List ProductVariant := []
  featured : Bool := false
deriving DecidableEq, Inhabited

/-- `schemas.CartItem`. -/
structure CartItem where
  product_id : String
  quantity : Int
  size : Option String := none
  color : Option String := none
deriving DecidableEq, Inhabited

/-- `schemas.CustomerInfo`. -/
structure CustomerInfo where
  name : String
  email : String
  address : String
  city : String
  country : String
  postal_code : String
deriving DecidableEq, Inhabited

/-- `schemas.Order`. -/
structure Order where
  items : List CartItem
  subtotal : Rat
  shipping : Rat
  total : Rat
  currency : String := "USD"
  status : String := "pending"
  customer : CustomerInfo
deriving DecidableEq, Inhabited

/-- Abstraction of pydantic's `EmailStr` check (an external library predicate):
a single `@` separating two non-empty parts.  No claim in this development
depends on the exact email grammar. -/
def isValidEmail (s : String) : Bool :=
  match s.splitOn "@" with
  | [local_, dom] => !local_.isEmpty && !dom.isEmpty
  | _ => false

/-- Bound violations of the `stock >= 0` constraint over a variant list,
reported with pydantic-style field paths, `i` the index of the first
variant. -/
def variantErrors : Nat → List ProductVariant → List String
  | _, [] => []
  | i, v :: vs =>
    (if v.stock < 0 then ["variants." ++ toString i ++ ".stock: must be >= 0"] else [])
      ++ variantErrors (i + 1) vs

/-- The validation errors pydantic raises for a `Product` body: `price >= 0`
and each `variants[i].stock >= 0` (field order of `schemas.Product`). -/
def productErrors (p : Product) : List String :=
  (if p.price < 0 then ["price: must be >= 0"] else []) ++ variantErrors 0 p.variants

/-- Schema validation of a `Product` body: the typed value, or the list of
field-path/constraint violations (surfaced by FastAPI as HTTP 422). -/
def validateProduct (p : Product) : Except (List String) Product :=
  if productErrors p = [] then .ok p else .error (productErrors p)

/-- Bound violations of the `quantity >= 1` constraint over the items list. -/
def itemErrors : Nat → List CartItem → List String
  | _, [] => []
  | i, it :: its =>
    (if it.quantity < 1 then ["items." ++ toString i ++ ".quantity: must be >= 1"] else [])
      ++ itemErrors (i + 1) its

/-- The validation errors pydantic raises for an `Order` body: each
`items[i].quantity >= 1`, `subtotal/shipping/total >= 0`, and the customer
email format (field order of `schemas.Order`). -/
def orderErrors (o : Order) : List String :=
  itemErrors 0 o.items
    ++ (if o.subtotal < 0 then ["subtotal: must be >= 0"] else [])
    ++ (if o.shipping < 0 then ["shipping: must be >= 0"] else [])
    ++ (if o.total < 0 then ["total: must be >= 0"] else [])
    ++ (if isValidEmail o.customer.email then [] else ["customer.email: not a valid address"])

/-- Schema validation of an `Order` body. -/
def validateOrder (o : Order) : Except (List String) Order :=
  if orderErrors o = [] then .ok o else .error (orderErrors o)

/-- `none ↦ null`, `some s ↦ s`, as pydantic's `.dict()` serializes optional
strings. -/
def optStr : Option String → Value
  | none => .null
  | some s => .str s

/-- The document fields of a `ProductVariant`, in schema field order. -/
def variantDoc (v : ProductVariant) : Value :=
  .ofDoc [("size", optStr v.size), ("color", optStr v.color),
          ("sku", optStr v.sku), ("stock", .intV v.stock)]

/-- The document fields of a `Product` as `create_document` serializes them
(schema field order, no identifier). -/
def productFields (p : Product) : Doc :=
  [("title", .str p.title), ("description", optStr p.description),
   ("price", .num p.price), ("category", .str p.category),
   ("images", .ofList (p.images.map .str)), ("brand", .str p.brand),
   ("tags", .ofList (p.tags.map .str)),
   ("variants", .ofList (p.variants.map variantDoc)), ("featured", .boolV p.featured)]

/-- The document fields of a `CartItem`, in schema field order. -/
def cartItemDoc (it : CartItem) : Value :=
  .ofDoc [("product_id", .str it.product_id), ("quantity", .intV it.quantity),
          ("size", optStr it.size), ("color", optStr it.color)]

/-- The document fields of a `CustomerInfo`, in schema field order. -/
def customerDoc (c : CustomerInfo) : Value :=
  .ofDoc [("name", .str c.name), ("email", .str c.email), ("address", .str c.address),
          ("city", .str c.city), ("country", .str c.country),
          ("postal_code", .str c.postal_code)]

/-- The document fields of an `Order` as `create_document` serializes them. -/
def orderFields (o : Order) : Doc :=
  [("items", .ofList (o.items.map cartItemDoc)), ("subtotal", .num o.subtotal),
   ("shipping", .num o.shipping), ("total", .num o.total),
   ("currency", .str o.currency), ("status", .str o.status),
   ("customer", customerDoc o.customer)]

/-- The document store: the two collections this core uses (`product` and
`order`, spec §6) plus the counter behind store-generated identifiers.  The
store is taken as configured (`db is not None`); availability failures are the
500 branch every handler guards with and carry no further logic. -/
structure Store where
  product : List Doc
  order : List Doc
  nextId : Nat
deriving DecidableEq, Inhabited

/-- A single round trip to the store, for stating that a request never touched
it. -/
inductive StoreOp where
  | readOp (collection : String)
  | writeOp (collection : String)
deriving DecidableEq

/-- Modelled from the spec: `database.create_document` (in `database.py`, not
among the sources).  Spec §4.2: `insert(collection, entity) → id` serializes
the entity's fields (excluding an identifier), writes a new document, and
returns the store-generated identifier as an opaque string.  The stored
document carries `_id` first, as the store returns it. -/
def create_document (collection : String) (fields : Doc) (s : Store) : String × Store :=
  let newId := genId s.nextId
  let doc : Doc := ("_id", .oid newId) :: fields
  if collection == "product" then
    (newId, { s with product := s.product ++ [doc], nextId := s.nextId + 1 })
  else if collection == "order" then
    (newId, { s with order := s.order ++ [doc], nextId := s.nextId + 1 })
  else (newId, s)

/-- Modelled from the spec: `database.get_documents` (in `database.py`, not
among the sources).  Spec §4.2: `find(collection, filter)` with a flat
equality mapping over fields. -/
def get_documents (coll : List Doc) (query : Doc) : List Doc :=
  coll.filter (fun d => query.all (fun kv => getVal d kv.1 == some kv.2))

/-- `find_one({"_id": oid})`: the first document whose `_id` equals the given
identifier. -/
def find_one_id (coll : List Doc) (pid : String) : Option Doc :=
  coll.find? (fun d => getVal d "_id" == some (.oid pid))

/-- A failed request: FastAPI's 422 validation response, or an
`HTTPException(status_code, detail)`. -/
inductive Failure where
  | validation (errs : List String)
  | http (status : Nat) (detail : String)
deriving DecidableEq

/-- The HTTP status a `Failure` is surfaced with (validation errors are 422). -/
def Failure.statusCode : Failure → Nat
  | .validation _ => 422
  | .http st _ => st

/-- `GET /api/products` (`main.list_products`): build the equality query —
`category` only when truthy (the empty string is falsy in Python), `featured`
whenever it is not `None` — then filter and serialize. -/
def list_products (s : Store) (category : Option String) (featured : Option Bool) :
    Except Failure (List Doc) :=
  let query : Doc :=
    (match category with
     | some c => if c ≠ "" then [("category", .str c)] else []
     | none => [])
    ++ (match featured with
        | some b => [("featured", .boolV b)]
        | none => [])
  .ok ((get_documents s.product query).map serialize_doc)

/-- `GET /api/products/{product_id}` (`main.get_product`): an unparsable id is
caught and surfaced as 400, a missing document as 404, otherwise the document
is serialized. -/
def get_product (s : Store) (product_id : String) : Except Failure Doc :=
  match parseOid product_id with
  | none => .error (.http 400 "Invalid product id")
  | some pid =>
    match find_one_id s.product pid with
    | none => .error (.http 404 "Product not found")
    | some doc => .ok (serialize_doc doc)

/-- `POST /api/products` (`main.create_product`) after schema validation:
insert, re-fetch by the returned id, serialize.  The unparsable-id branch
models the uncaught exception `ObjectId(new_id)` would raise (a 500); it is
provably never taken. -/
def create_product (s : Store) (p : Product) : Store × Except Failure (Option Doc) :=
  let (newId, s') := create_document "product" (productFields p) s
  match parseOid newId with
  | none => (s', .error (.http 500 "Internal Server Error"))
  | some pid => (s', .ok (serialize_doc_opt (find_one_id s'.product pid)))

/-- The referential check of `main.create_order`: walk the items in list
order; the first unparsable `product_id` raises 400 naming it, the first one
that resolves to no product document raises 400 naming it; otherwise continue. -/
def checkItems (s : Store) : List CartItem → Option Failure
  | [] => none
  | it :: rest =>
    match parseOid it.product_id with
    | none => some (.http 400 ("Invalid product id: " ++ it.product_id))
    | some pid =>
      match find_one_id s.product pid with
      | none => some (.http 400 ("Product not found: " ++ it.product_id))
      | some _ => checkItems s rest

/-- `POST /api/orders` (`main.create_order`) after schema validation: the
referential check runs before any insert; only when every item resolves is the
order document written and re-fetched. -/
def create_order (s : Store) (o : Order) : Store × Except Failure (Option Doc) :=
  match checkItems s o.items with
  | some f => (s, .error f)
  | none =>
    let (newId, s') := create_document "order" (orderFields o) s
    match parseOid newId with
    | none => (s', .error (.http 500 "Internal Server Error"))
    | some oid => (s', .ok (serialize_doc_opt (find_one_id s'.order oid)))

/-- The store round trips the referential check of `main.create_order`
performs: one `product` read per item whose id parses, stopping at the first
failure. -/
def checkOps (s : Store) : List CartItem → List StoreOp
  | [] => []
  | it :: rest =>
    match parseOid it.product_id with
    | none => []
    | some pid =>
      .readOp "product" :: (match find_one_id s.product pid with
        | none => []
        | some _ => checkOps s rest)

/-- The outcome of one full request: the store afterwards, the store round
trips the request performed, and the response. -/
structure HandlerOutcome (α : Type) where
  store : Store
  ops : List StoreOp
  resp : Except Failure α

/-- The full `POST /api/products` request pipeline: FastAPI validates the body
against `schemas.Product` before the handler body runs, so a validation
failure is answered 422 with no store round trip at all. -/
def post_products (s : Store) (p : Product) : HandlerOutcome (Option Doc) :=
  match validateProduct p with
  | .error errs => ⟨s, [], .error (.validation errs)⟩
  | .ok p' =>
    let (s', r) := create_product s p'
    ⟨s', [.writeOp "product", .readOp "product"], r⟩

/-- The full `POST /api/orders` request pipeline: schema validation first
(422, no store round trip on failure), then the handler with its referential
reads and, on success, the order write and re-fetch. -/
def post_orders (s : Store) (o : Order) : HandlerOutcome (Option Doc) :=
  match validateOrder o with
  | .error errs => ⟨s, [], .error (.validation errs)⟩
  | .ok o' =>
    let (s', r) := create_order s o'
    let ops := checkOps s o'.items
      ++ (match checkItems s o'.items with
          | some _ => []
          | none => [.writeOp "order", .readOp "order"])
    ⟨s', ops, r⟩

/-- `main.SAMPLE_PRODUCTS`: the three sample products seeded into an empty
store. -/
def SAMPLE_PRODUCTS : List Product :=
  [{ title := "Vistro Classic Tee",
     description := some "Soft cotton tee with minimalist Vistro logo.",
     price := 28, category := "T-Shirts",
     images := ["https://images.unsplash.com/photo-1520975916090-3105956dac38?q=80&w=1200"],
     tags := ["tee", "classic", "logo"],
     variants := ["S", "M", "L", "XL"].map (fun sz =>
       { size := some sz, color := some "Black",
         sku := some ("VT-TEE-BLK-" ++ sz), stock := 50 }),
     featured := true },
   { title := "Vistro Cozy Hoodie",
     description := some "Premium fleece hoodie built for comfort.",
     price := 64, category := "Hoodies",
     images := ["https://images.unsplash.com/photo-1516826957135-700dedea698c?q=80&w=1200"],
     tags := ["hoodie", "fleece", "cozy"],
     variants := ["S", "M", "L", "XL"].map (fun sz =>
       { size := some sz, color := some "Heather Gray",
         sku := some ("VT-HDY-GRY-" ++ sz), stock := 30 }),
     featured := true },
   { title := "Vistro Performance Joggers",
     description := some "Stretch joggers for all-day movement.",
     price := 54, category := "Bottoms",
     images := ["https://images.unsplash.com/photo-1519741497674-611481863552?q=80&w=1200"],
     tags := ["joggers", "athleisure"],
     variants := ["S", "M", "L", "XL"].map (fun sz =>
       { size := some sz, color := some "Charcoal",
         sku := some ("VT-JGR-CHR-" ++ sz), stock := 40 }),
     featured := false }]

/-- `POST /api/seed` (`main.seed_products`): when the `product` collection is
non-empty answer "already seeded" with its count and change nothing; when it
is empty insert each sample product in turn and answer with the inserted ids. -/
def seed_products (s : Store) : Store × Doc :=
  let count := s.product.length
  if count > 0 then
    (s, [("message", .str "Products already seeded"), ("count", .intV count)])
  else
    let (s', inserted) := SAMPLE_PRODUCTS.foldl
      (fun (acc : Store × List String) p =>
        let (newId, s') := create_document "product" (productFields p) acc.1
        (s', acc.2 ++ [newId]))
      (s, [])
    (s', [("message", .str "Seeded sample products"),
          ("inserted", .ofList (inserted.map .str))])

theorem all_noOid_map_stripTopOid (l : Doc) :
    (l.map stripTopOid).all (fun kv => !isOidValue kv.2) = true := by
  induction l with
  | nil => rfl
  | cons kv tl ih =>
    obtain ⟨k, v⟩ := kv
    cases v <;> simpa [stripTopOid, isOidValue] using ih

theorem hasKey_map_stripTopOid (l : Doc) (k : String) :
    hasKey (l.map stripTopOid) k = hasKey l k := by
  induction l with
  | nil => rfl
  | cons kv tl ih =>
    obtain ⟨k', v⟩ := kv
    cases v <;> simp [stripTopOid, hasKey, List.any_cons] <;>
      simpa [hasKey] using congrArg (fun b => (k' == k) || b) ih

theorem getVal_map_stripTopOid (l : Doc) (k : String) (v : Value) :
    getVal l k = some v → getVal (l.map stripTopOid) k = some (stripTopOid (k, v)).2 := by
  induction l with
  | nil => intro h; simp [getVal] at h
  | cons kv tl ih =>
    obtain ⟨k', w⟩ := kv
    intro h
    by_cases hk : k' == k
    · have hw : w = v := by
        simp [getVal, List.find?, hk] at h
        exact h
      subst hw
      cases w <;> simp [getVal, List.find?, stripTopOid, hk]
    · have hrec := ih (by simpa [getVal, List.find?, hk] using h)
      cases w <;> simpa [getVal, List.find?, stripTopOid, hk] using hrec

theorem hasKey_removeKey (d : Doc) (k : String) : hasKey (removeKey d k) k = false := by
  induction d with
  | nil => rfl
  | cons kv tl ih =>
    by_cases hk : kv.1 == k
    · simpa [removeKey, List.filter, hk] using ih
    · simpa [removeKey, List.filter, hk, hasKey] using ih

theorem hasKey_updateKey (d : Doc) (k k' : String) (v : Value) (h : (k' == k) = false) :
    hasKey (updateKey d k' v) k = hasKey d k := by
  induction d with
  | nil => rfl
  | cons kv tl ih =>
    by_cases hk : kv.1 == k'
    · have hkk : (kv.1 == k) = false := by
        have : kv.1 = k' := by simpa using hk
        simpa [this] using h
      simp [updateKey, hk, hasKey, h, hkk, ih]
    · simp [updateKey, hk, hasKey, ih]

theorem hasKey_append_single (d : Doc) (k k' : String) (v : Value) :
    hasKey (d ++ [(k', v)]) k = (hasKey d k || (k' == k)) := by
  induction d with
  | nil => simp [hasKey]
  | cons kv tl ih => simp [hasKey, ih, Bool.or_assoc]

theorem hasKey_setKey_ne (d : Doc) (k k' : String) (v : Value) (h : (k' == k) = false) :
    hasKey (setKey d k' v) k = hasKey d k := by
  unfold setKey
  by_cases hd : hasKey d k'
  · simp [hd, hasKey_updateKey d k k' v h]
  · simp [hd, hasKey_append_single, h]

theorem getVal_updateKey_self (d : Doc) (k : String) (v : Value) (h : hasKey d k = true) :
    getVal (updateKey d k v) k = some v := by
  induction d with
  | nil => simp [hasKey] at h
  | cons kv tl ih =>
    by_cases hk : kv.1 == k
    · simp [updateKey, hk, getVal]
    · have htl : hasKey tl k = true := by simpa [hasKey, hk] using h
      simp [updateKey, hk, getVal, ih htl]

theorem getVal_append_single (d : Doc) (k : String) (v : Value) (h : hasKey d k = false) :
    getVal (d ++ [(k, v)]) k = some v := by
  induction d with
  | nil => simp [getVal]
  | cons kv tl ih =>
    have hk : (kv.1 == k) = false := by
      cases hc : (kv.1 == k) with
      | false => rfl
      | true => simp [hasKey, hc] at h
    have htl : hasKey tl k = false := by simpa [hasKey, hk] using h
    simp [getVal, hk, ih htl]

theorem getVal_setKey (d : Doc) (k : String) (v : Value) :
    getVal (setKey d k v) k = some v := by
  unfold setKey
  by_cases hd : hasKey d k
  · simp [hd, getVal_updateKey_self d k v hd]
  · simp [hd, getVal_append_single d k v (by simpa using hd)]

theorem getVal_isSome_of_hasKey (d : Doc) (k : String) (h : hasKey d k = true) :
    ∃ v, getVal d k = some v := by
  induction d with
  | nil => simp [hasKey] at h
  | cons kv tl ih =>
    by_cases hk : kv.1 == k
    · exact ⟨kv.2, by simp [getVal, List.find?, hk]⟩
    · have := ih (by simpa [hasKey, List.any_cons, hk] using h)
      obtain ⟨v, hv⟩ := this
      exact ⟨v, by simpa [getVal, List.find?, hk] using hv⟩

/-- An order-shaped document whose item list carries a store-native identifier:
the serializer's loop never descends into the `items` array. -/
def nestedOidDoc : Doc :=
  [("_id", .oid "aaaaaaaaaaaaaaaaaaaaaaaa"),
   ("items", .consA (.consD "product_id" (.oid "0123456789abcdef01234567") .nilD) .nilA)]

/-- C1 counterexample: the claim says every store-native identifier value is
stringified at any nesting depth, but `serialize_doc` leaves an ObjectId
inside a document's `items` list untouched: the serialized `nestedOidDoc`
still contains a native identifier. -/
theorem C1_counterexample_nested_oid_survives :
    docFreeOfOid (serialize_doc nestedOidDoc) = false := by decide

/-- C1 (amended): `serialize_doc` replaces the top-level `_id` key by a string
`id` field and stringifies every store-native identifier occurring as the
direct value of a top-level key; identifier values nested deeper (inside
lists or sub-documents) are not converted. -/
theorem C1_serialize_doc_top_level_only (d : Doc) :
    (serialize_doc d).all (fun kv => !isOidValue kv.2) = true
    ∧ hasKey (serialize_doc d) "_id" = false
    ∧ (hasKey d "_id" = true →
        ∃ o, getVal (serialize_doc d) "id" = some (.str o)) := by
  unfold serialize_doc
  by_cases hemp : d.isEmpty
  · have hd : d = [] := List.isEmpty_iff.mp hemp
    subst hd
    exact ⟨rfl, rfl, fun h => by simp [hasKey] at h⟩
  · rw [if_neg hemp]
    by_cases hid : hasKey d "_id"
    · obtain ⟨v, hv⟩ := getVal_isSome_of_hasKey d "_id" hid
      rw [if_pos hid, hv]
      refine ⟨all_noOid_map_stripTopOid _, ?_, fun _ => ?_⟩
      · rw [hasKey_map_stripTopOid,
            hasKey_setKey_ne _ _ _ _ (by decide), hasKey_removeKey]
      · refine ⟨pyStr v, ?_⟩
        have := getVal_map_stripTopOid
          (setKey (removeKey d "_id") "id" (.str (pyStr v))) "id" (.str (pyStr v))
          (getVal_setKey _ _ _)
        simpa [stripTopOid] using this
    · rw [if_neg hid]
      exact ⟨all_noOid_map_stripTopOid _,
        by rw [hasKey_map_stripTopOid]; simpa using hid,
        fun h => absurd h (by simpa using hid)⟩

theorem C1_serialize_doc_top_level_only_witness :
    (serialize_doc nestedOidDoc).all (fun kv => !isOidValue kv.2) = true
    ∧ hasKey (serialize_doc nestedOidDoc) "_id" = false
    ∧ ∃ o, getVal (serialize_doc nestedOidDoc) "id" = some (.str o) :=
  ⟨(C1_serialize_doc_top_level_only nestedOidDoc).1,
   (C1_serialize_doc_top_level_only nestedOidDoc).2.1,
   (C1_serialize_doc_top_level_only nestedOidDoc).2.2 rfl⟩

/-- C9: response serialization never mutates its input — the call leaves the
caller's document (its `_id` key and all values included) unchanged, and an
empty or absent document is returned as it came. -/
theorem C9_serialize_doc_no_mutation (d : Doc) :
    (serialize_doc_call d).1 = d
    ∧ serialize_doc ([] : Doc) = []
    ∧ serialize_doc_opt none = none :=
  ⟨rfl, rfl, rfl⟩

/-- C5: fetching a product whose id string is syntactically invalid for the
store's identifier format fails with 400 (never 500); fetching a well-formed
id that matches no document fails with 404. -/
theorem C5_get_product_400_404 (s : Store) (pid : String) :
    (parseOid pid = none →
      get_product s pid = .error (.http 400 "Invalid product id"))
    ∧ (∀ p, parseOid pid = some p → find_one_id s.product p = none →
        get_product s pid = .error (.http 404 "Product not found")) := by
  constructor
  · intro h
    simp [get_product, h]
  · intro p hp hf
    simp [get_product, hp, hf]

theorem C5_get_product_400_404_witness :
    get_product ⟨[], [], 0⟩ "not-an-objectid" = .error (.http 400 "Invalid product id")
    ∧ get_product ⟨[], [], 0⟩ (genId 0) = .error (.http 404 "Product not found") :=
  ⟨(C5_get_product_400_404 ⟨[], [], 0⟩ "not-an-objectid").1 rfl,
   (C5_get_product_400_404 ⟨[], [], 0⟩ (genId 0)).2 (genId 0) (parseOid_genId 0) rfl⟩

/-- C8: listing with `featured=true` returns exactly the serialized product
documents whose `featured` field is `true`; listing with no filters returns
every product document, serialized. -/
theorem C8_list_products_featured_and_unfiltered (s : Store) :
    list_products s none (some true)
      = .ok ((s.product.filter
          (fun d => getVal d "featured" == some (.boolV true))).map serialize_doc)
    ∧ list_products s none none = .ok (s.product.map serialize_doc) := by
  constructor
  · simp [list_products, get_documents]
  · simp [list_products, get_documents]

/-- C10: an empty-string `category` query parameter is falsy in Python, so the
category filter is dropped and listing behaves exactly as with no category
filter; `featured=false` on the other hand is `not None` and is applied as a
real equality filter. -/
theorem C10_list_products_empty_category_featured_false (s : Store) :
    (∀ featured, list_products s (some "") featured = list_products s none featured)
    ∧ list_products s none (some false)
      = .ok ((s.product.filter
          (fun d => getVal d "featured" == some (.boolV false))).map serialize_doc) := by
  constructor
  · intro featured
    simp [list_products]
  · simp [list_products, get_documents]

/-- One item of the referential check in isolation: its `product_id` parses
and resolves to a stored product document. -/
def itemResolves (s : Store) (it : CartItem) : Bool :=
  match parseOid it.product_id with
  | none => false
  | some pid => (find_one_id s.product pid).isSome

theorem checkItems_none_of_resolves (s : Store) (it : CartItem) (rest : List CartItem)
    (h : itemResolves s it = true) :
    checkItems s (it :: rest) = checkItems s rest := by
  unfold itemResolves at h
  cases hp : parseOid it.product_id with
  | none => simp [hp] at h
  | some pid =>
    simp only [hp] at h
    cases hf : find_one_id s.product pid with
    | none => simp [hf] at h
    | some doc => simp [checkItems, hp, hf]

theorem checkItems_isSome_of_bad (s : Store) (items : List CartItem)
    (h : ∃ it ∈ items, itemResolves s it = false) :
    ∃ f, checkItems s items = some f := by
  induction items with
  | nil => obtain ⟨it, hmem, _⟩ := h; simp at hmem
  | cons a l ih =>
    by_cases ha : itemResolves s a = true
    · rw [checkItems_none_of_resolves s a l ha]
      obtain ⟨it, hmem, hbad⟩ := h
      rcases List.mem_cons.mp hmem with heq | hl
      · subst heq; rw [ha] at hbad; simp at hbad
      · exact ih ⟨it, hl, hbad⟩
    · have ha' : itemResolves s a = false := by simpa using ha
      unfold itemResolves at ha'
      unfold checkItems
      cases hp : parseOid a.product_id with
      | none =>
        refine ⟨.http 400 ("Invalid product id: " ++ a.product_id), ?_⟩
        simp [checkItems, hp]
      | some pid =>
        simp only [hp] at ha'
        cases hf : find_one_id s.product pid with
        | none =>
          refine ⟨.http 400 ("Product not found: " ++ a.product_id), ?_⟩
          simp [checkItems, hp, hf]
        | some doc => simp [hf] at ha'

/-- C2: when any item of an order carries a malformed `product_id` or one that
resolves to no stored product, order creation fails and performs no write:
the resulting store is the unchanged input store, so both collection counts
are untouched. -/
theorem C2_create_order_atomic_rejection (s : Store) (o : Order)
    (h : ∃ it ∈ o.items, itemResolves s it = false) :
    (∃ f, create_order s o = (s, .error f))
    ∧ (create_order s o).1.product.length = s.product.length
    ∧ (create_order s o).1.order.length = s.order.length := by
  obtain ⟨f, hf⟩ := checkItems_isSome_of_bad s o.items h
  refine ⟨⟨f, ?_⟩, ?_, ?_⟩ <;> simp [create_order, hf]

/-- A concrete customer used by closed witnesses. -/
def sampleCustomer : CustomerInfo :=
  { name := "Ada", email := "ada@example.com", address := "1 Main St",
    city := "Zurich", country := "CH", postal_code := "8000" }

theorem C2_create_order_atomic_rejection_witness :
    (∃ f, create_order ⟨[], [], 0⟩
        ⟨[⟨"not-an-objectid", 1, none, none⟩], 10, 5, 15, "USD", "pending",
         sampleCustomer⟩ = (⟨[], [], 0⟩, .error f))
    ∧ (create_order ⟨[], [], 0⟩
        ⟨[⟨"not-an-objectid", 1, none, none⟩], 10, 5, 15, "USD", "pending",
         sampleCustomer⟩).1.product.length = ([] : List Doc).length
    ∧ (create_order ⟨[], [], 0⟩
        ⟨[⟨"not-an-objectid", 1, none, none⟩], 10, 5, 15, "USD", "pending",
         sampleCustomer⟩).1.order.length = ([] : List Doc).length :=
  C2_create_order_atomic_rejection ⟨[], [], 0⟩
    ⟨[⟨"not-an-objectid", 1, none, none⟩], 10, 5, 15, "USD", "pending", sampleCustomer⟩
    ⟨⟨"not-an-objectid", 1, none, none⟩, by simp, by decide⟩

theorem checkItems_append_of_resolves (s : Store) (pre l : List CartItem)
    (h : ∀ j ∈ pre, itemResolves s j = true) :
    checkItems s (pre ++ l) = checkItems s l := by
  induction pre with
  | nil => rfl
  | cons a tl ih =>
    rw [List.cons_append,
        checkItems_none_of_resolves s a (tl ++ l) (h a (List.mem_cons_self a tl))]
    exact ih (fun j hj => h j (List.mem_cons_of_mem a hj))

/-- C6: the referential check of order creation walks the items in list order
and stops at the first invalid one: when every item before `it` resolves and
`it` is the first invalid item, the request fails with a 400 whose message
names `it.product_id` — "Invalid product id: …" when the id is malformed,
"Product not found: …" when it is well-formed but matches no product.  The
conclusion does not depend on `rest`, the items after `it`: they are never
scanned. -/
theorem C6_create_order_short_circuit (s : Store) (o : Order)
    (pre : List CartItem) (it : CartItem) (rest : List CartItem)
    (hitems : o.items = pre ++ it :: rest)
    (hpre : ∀ j ∈ pre, itemResolves s j = true)
    (hbad : itemResolves s it = false) :
    create_order s o = (s, .error (.http 400
      (if parseOid it.product_id = none
        then "Invalid product id: " ++ it.product_id
        else "Product not found: " ++ it.product_id))) := by
  have hchk : checkItems s o.items = some (.http 400
      (if parseOid it.product_id = none
        then "Invalid product id: " ++ it.product_id
        else "Product not found: " ++ it.product_id)) := by
    rw [hitems, checkItems_append_of_resolves s pre (it :: rest) hpre]
    unfold itemResolves at hbad
    cases hp : parseOid it.product_id with
    | none => simp [checkItems, hp]
    | some pid =>
      simp only [hp] at hbad
      cases hf : find_one_id s.product pid with
      | none => simp [checkItems, hp, hf]
      | some doc => simp [hf] at hbad
  simp [create_order, hchk]

theorem C6_create_order_short_circuit_witness :
    create_order ⟨[], [], 0⟩
      ⟨[⟨"not-an-objectid", 1, none, none⟩, ⟨"also-invalid", 1, none, none⟩],
       10, 5, 15, "USD", "pending", sampleCustomer⟩
      = (⟨[], [], 0⟩, .error (.http 400 "Invalid product id: not-an-objectid")) := by
  have h := C6_create_order_short_circuit ⟨[], [], 0⟩
    ⟨[⟨"not-an-objectid", 1, none, none⟩, ⟨"also-invalid", 1, none, none⟩],
     10, 5, 15, "USD", "pending", sampleCustomer⟩
    [] ⟨"not-an-objectid", 1, none, none⟩ [⟨"also-invalid", 1, none, none⟩]
    rfl (by simp) (by decide)
  simpa using h

theorem variantErrors_ne_nil (vs : List ProductVariant) (i : Nat)
    (h : ∃ v ∈ vs, v.stock < 0) : variantErrors i vs ≠ [] := by
  induction vs generalizing i with
  | nil => obtain ⟨v, hmem, _⟩ := h; simp at hmem
  | cons a tl ih =>
    by_cases ha : a.stock < 0
    · simp [variantErrors, ha]
    · obtain ⟨v, hmem, hv⟩ := h
      rcases List.mem_cons.mp hmem with heq | htl
      · subst heq; exact absurd hv ha
      · simpa [variantErrors, ha] using ih (i + 1) ⟨v, htl, hv⟩

theorem itemErrors_ne_nil (its : List CartItem) (i : Nat)
    (h : ∃ it ∈ its, it.quantity < 1) : itemErrors i its ≠ [] := by
  induction its generalizing i with
  | nil => obtain ⟨it, hmem, _⟩ := h; simp at hmem
  | cons a tl ih =>
    by_cases ha : a.quantity < 1
    · simp [itemErrors, ha]
    · obtain ⟨it, hmem, hit⟩ := h
      rcases List.mem_cons.mp hmem with heq | htl
      · subst heq; exact absurd hit ha
      · simpa [itemErrors, ha] using ih (i + 1) ⟨it, htl, hit⟩

/-- C4: a product body with a negative price or a negative variant stock, and
an order body with an item quantity below 1, never pass schema validation:
the request is answered with the 422 validation failure, the store is left
exactly as it was, and not a single store round trip happens. -/
theorem C4_validation_rejects_before_store (s : Store) (p : Product) (o : Order)
    (hp : p.price < 0 ∨ ∃ v ∈ p.variants, v.stock < 0)
    (ho : ∃ it ∈ o.items, it.quantity < 1) :
    (∃ errs, errs ≠ [] ∧ post_products s p = ⟨s, [], .error (.validation errs)⟩)
    ∧ (∃ errs, errs ≠ [] ∧ post_orders s o = ⟨s, [], .error (.validation errs)⟩) := by
  constructor
  · have herr : productErrors p ≠ [] := by
      rcases hp with hprice | hvar
      · simp [productErrors, hprice]
      · intro hc
        rcases List.append_eq_nil.mp hc with ⟨_, h2⟩
        exact variantErrors_ne_nil p.variants 0 hvar h2
    refine ⟨productErrors p, herr, ?_⟩
    simp [post_products, validateProduct, herr]
  · have herr : orderErrors o ≠ [] := by
      intro hc
      rcases List.append_eq_nil.mp hc with ⟨h1, _⟩
      rcases List.append_eq_nil.mp h1 with ⟨h2, _⟩
      rcases List.append_eq_nil.mp h2 with ⟨h3, _⟩
      rcases List.append_eq_nil.mp h3 with ⟨h4, _⟩
      exact itemErrors_ne_nil o.items 0 ho h4
    refine ⟨orderErrors o, herr, ?_⟩
    simp [post_orders, validateOrder, herr]

theorem C4_validation_rejects_before_store_witness :
    (∃ errs, errs ≠ [] ∧
      post_products ⟨[], [], 0⟩
        { title := "Bad", price := -1, category := "T-Shirts",
          variants := [{ stock := -2 }] }
        = ⟨⟨[], [], 0⟩, [], .error (.validation errs)⟩)
    ∧ (∃ errs, errs ≠ [] ∧
        post_orders ⟨[], [], 0⟩
          ⟨[⟨"000000000000000000000000", 0, none, none⟩], 10, 5, 15, "USD",
           "pending", sampleCustomer⟩
          = ⟨⟨[], [], 0⟩, [], .error (.validation errs)⟩) :=
  C4_validation_rejects_before_store ⟨[], [], 0⟩
    { title := "Bad", price := -1, category := "T-Shirts", variants := [{ stock := -2 }] }
    ⟨[⟨"000000000000000000000000", 0, none, none⟩], 10, 5, 15, "USD", "pending",
     sampleCustomer⟩
    (Or.inl (by decide))
    ⟨⟨"000000000000000000000000", 0, none, none⟩, by simp, by decide⟩

/-- C7: seeding is idempotent on a non-empty product collection.  With
products already present, the call answers "Products already seeded" with the
existing count and leaves the store untouched.  Against an empty product
collection it inserts exactly the three sample products (each under a fresh
store-generated identifier) and answers with their ids. -/
theorem C7_seed_idempotent (s : Store) :
    (s.product ≠ [] →
      seed_products s = (s, [("message", .str "Products already seeded"),
                             ("count", .intV s.product.length)]))
    ∧ (s.product = [] →
        seed_products s =
          ({ s with
              product :=
                [("_id", .oid (genId s.nextId)) ::
                   productFields (SAMPLE_PRODUCTS.getD 0 default),
                 ("_id", .oid (genId (s.nextId + 1))) ::
                   productFields (SAMPLE_PRODUCTS.getD 1 default),
                 ("_id", .oid (genId (s.nextId + 2))) ::
                   productFields (SAMPLE_PRODUCTS.getD 2 default)],
              nextId := s.nextId + 3 },
           [("message", .str "Seeded sample products"),
            ("inserted", .ofList [.str (genId s.nextId), .str (genId (s.nextId + 1)),
                                  .str (genId (s.nextId + 2))])])) := by
  constructor
  · intro h
    have hlen : 0 < s.product.length := List.length_pos.mpr h
    simp [seed_products, hlen]
  · intro h
    obtain ⟨prods, ords, n⟩ := s
    simp only at h
    subst h
    rfl

theorem C7_seed_idempotent_witness :
    (seed_products ⟨[[("brand", .str "Vistro")]], [], 7⟩
      = (⟨[[("brand", .str "Vistro")]], [], 7⟩,
         [("message", .str "Products already seeded"), ("count", .intV 1)]))
    ∧ (seed_products ⟨[], [], 0⟩
        = ({ product :=
              [("_id", .oid (genId 0)) :: productFields (SAMPLE_PRODUCTS.getD 0 default),
               ("_id", .oid (genId 1)) :: productFields (SAMPLE_PRODUCTS.getD 1 default),
               ("_id", .oid (genId 2)) :: productFields (SAMPLE_PRODUCTS.getD 2 default)],
             order := [], nextId := 3 },
           [("message", .str "Seeded sample products"),
            ("inserted", .ofList [.str (genId 0), .str (genId 1), .str (genId 2)])])) :=
  ⟨by simpa using (C7_seed_idempotent ⟨[[("brand", .str "Vistro")]], [], 7⟩).1 (by simp),
   by simpa using (C7_seed_idempotent ⟨[], [], 0⟩).2 rfl⟩

theorem stripTopOid_ofList (k : String) (xs : List Value) :
    stripTopOid (k, Value.ofList xs) = (k, Value.ofList xs) := by
  cases xs <;> rfl

theorem stripTopOid_optStr (k : String) (o : Option String) :
    stripTopOid (k, optStr o) = (k, optStr o) := by
  cases o <;> rfl

/-- Serializing a freshly stored product document (its `_id` first, then the
schema fields, none of which is identifier-typed) yields exactly the entity's
fields with a trailing string `id`. -/
theorem serialize_new_product_doc (p : Product) (nid : String) :
    serialize_doc (("_id", .oid nid) :: productFields p)
      = productFields p ++ [("id", .str nid)] := by
  simp [serialize_doc, productFields, hasKey, getVal, removeKey, setKey, updateKey,
        stripTopOid, pyStr, stripTopOid_ofList, stripTopOid_optStr]
  refine ⟨?_, ?_, ?_, ?_⟩
  · cases p.description <;> rfl
  · cases p.images <;> rfl
  · cases p.tags <;> rfl
  · cases p.variants <;> rfl

/-- C3: creating a valid product and then fetching the id the creation
response carries yields a document equal to the product in every field, the
appended string `id` being the only addition.  The hypothesis says the store's
next generated identifier is fresh — no stored product document already
carries it, which the store's identifier generator guarantees. -/
theorem C3_create_then_get_roundtrip (s : Store) (p : Product)
    (hfresh : find_one_id s.product (genId s.nextId) = none) :
    (create_product s p).2
        = .ok (some (productFields p ++ [("id", .str (genId s.nextId))]))
    ∧ get_product (create_product s p).1 (genId s.nextId)
        = .ok (productFields p ++ [("id", .str (genId s.nextId))]) := by
  have hfind : find_one_id
      (s.product ++ [("_id", .oid (genId s.nextId)) :: productFields p])
      (genId s.nextId)
      = some (("_id", .oid (genId s.nextId)) :: productFields p) := by
    unfold find_one_id at hfresh ⊢
    rw [List.find?_append, hfresh]
    simp [getVal]
  constructor
  · simp [create_product, create_document, parseOid_genId, hfind,
          serialize_doc_opt, serialize_new_product_doc]
  · simp [get_product, create_product, create_document, parseOid_genId, hfind,
          serialize_new_product_doc]

theorem C3_create_then_get_roundtrip_witness :
    (create_product ⟨[], [], 0⟩
        { title := "Vistro Classic Tee", price := 28, category := "T-Shirts" }).2
      = .ok (some (productFields
          { title := "Vistro Classic Tee", price := 28, category := "T-Shirts" }
          ++ [("id", .str (genId 0))]))
    ∧ get_product (create_product ⟨[], [], 0⟩
        { title := "Vistro Classic Tee", price := 28, category := "T-Shirts" }).1
        (genId 0)
      = .ok (productFields
          { title := "Vistro Classic Tee", price := 28, category := "T-Shirts" }
          ++ [("id", .str (genId 0))]) :=
  C3_create_then_get_roundtrip ⟨[], [], 0⟩
    { title := "Vistro Classic Tee", price := 28, category := "T-Shirts" } rfl
